import Mathlib

/-
Shallow embedding of the rspamd kv storage engine (src/src/kvstorage.c).

Conventions of the embedding
* Keys and payloads are byte sequences, modelled as `List Nat` (each entry a
  byte value below 256).
* Elements live in a heap `elems : List KvElement`; an element is identified
  by its index in that list and is never physically removed from it.  The
  cache index and the LRU expire queue hold element ids.  A call of
  `g_slice_free1` on an element is recorded by appending its id to `freed`.
* `gsize` counters (`elts`, `memory`) use 64-bit modular arithmetic,
  made explicit through `add64` / `sub64`.
* `time_t` values (`now`, `age`) are natural numbers; the signed C
  comparisons `now - age > expire` and `expire - (now - age) > 0` are
  rendered as `now > age + expire` and `now < age + expire`, which agree
  with the 64-bit signed arithmetic of the source for all natural inputs
  (a negative `now - age` counts as "not expired", as in the source).
* The backend plug-in is absent (`storage->backend == NULL`) in every state
  of this development, matching the configurations the claims are about, so
  the backend branches of the source collapse to their NULL cases.
-/

/-- Modelled from the spec: the flag bits of `kvstorage.h` (a header of this
repository that is not under src/).  The spec describes `flags` as a bit set
over PERSISTENT, DIRTY, NEED_FREE and ARRAY; we model the set by four
booleans. -/
structure KvFlags where
  persistent : Bool
  dirty : Bool
  need_free : Bool
  array : Bool
deriving DecidableEq, Repr

/-- The all-clear flag set (a C `flags = 0`, or a `g_slice_alloc0` record). -/
def kvNoFlags : KvFlags := ⟨false, false, false, false⟩

/-- A key is a byte string (the C key bytes before the terminating NUL). -/
abbrev Key := List Nat

/-- Modelled from the spec: `struct rspamd_kv_element` of `kvstorage.h`
(header not under src/).  Fields follow the spec's data model: key bytes,
payload bytes, payload length `size`, key length, flags, insertion time
`age` and lifetime `expire`.  The cached key hash is not modelled (it is
produced by an external hasher and never influences the specified
behaviour). -/
structure KvElement where
  key : Key
  data : List Nat
  size : Nat
  keylen : Nat
  flags : KvFlags
  age : Nat
  expire : Nat
deriving DecidableEq, Repr

instance : Inhabited KvElement := ⟨⟨[], [], 0, 0, kvNoFlags, 0, 0⟩⟩

/-- The concrete cache plug-in state: a hashed cache (GHashTable modelled as
an association list from keys to element ids, with the source's
case-insensitive key comparer) or a radix cache (the external 32-bit radix
tree modelled as an association list from 32-bit keys to element ids; every
source call uses the full mask 0xffffffff, so a plain map is faithful). -/
inductive KvCache where
  | hash (tbl : List (Key × Nat))
  | radix (tree : List (Nat × Nat))
deriving DecidableEq, Repr

/-- Modelled from the spec: `struct rspamd_kv_storage` of `kvstorage.h`
(header not under src/), restricted to the fields `kvstorage.c` reads,
plus the element heap, the free log and the record-header size `overhead`
(the target's `sizeof (struct rspamd_kv_element)`, kept symbolic). -/
structure KvStorage where
  elems : List KvElement
  freed : List Nat
  cache : KvCache
  queue : List Nat
  hasExpire : Bool
  elts : Nat
  memory : Nat
  maxElts : Nat
  maxMemory : Nat
  overhead : Nat
deriving DecidableEq, Repr

/-- 2^64, the modulus of `gsize` arithmetic. -/
def wordMod : Nat := 18446744073709551616

/-- `gsize` addition. -/
def add64 (a b : Nat) : Nat := (a + b) % wordMod

/-- `gsize` subtraction (wrapping). -/
def sub64 (a b : Nat) : Nat := (a + wordMod - b % wordMod) % wordMod

/-- Read the element with id `i` (total: a dummy element for a dangling id;
reachable states only use live ids). -/
def eltAt (s : KvStorage) (i : Nat) : KvElement := (s.elems[i]?).getD default

/-- Replace the heap entry at index `i`. -/
def listSet : List KvElement → Nat → KvElement → List KvElement
  | [], _, _ => []
  | _ :: xs, 0, e => e :: xs
  | x :: xs, n + 1, e => x :: listSet xs n e

/-- Apply `f` to the element with id `i` in place. -/
def updateElt (s : KvStorage) (i : Nat) (f : KvElement → KvElement) : KvStorage :=
  { s with elems := listSet s.elems i (f (eltAt s i)) }

/-- Mark the element NEED_FREE (the `elt->flags |= KV_ELT_NEED_FREE` of the
source). -/
def setNeedFree (s : KvStorage) (i : Nat) : KvStorage :=
  updateElt s i (fun e => { e with flags := { e.flags with need_free := true } })

/-- Record a `g_slice_free1` of element `i`. -/
def freeElt (s : KvStorage) (i : Nat) : KvStorage :=
  { s with freed := s.freed ++ [i] }

/-- Modelled from the spec: the `ELT_SIZE` macro of `kvstorage.h` (header not
under src/).  Per spec section 4.5 an element is one allocation holding the
record header, the NUL-terminated key and the payload, so its size is
`overhead + keylen + 1 + size` (matching the allocation sizes visible in
`kvstorage.c`). -/
def ELT_SIZE (s : KvStorage) (e : KvElement) : Nat := s.overhead + e.keylen + 1 + e.size

/-- Case folding of the source's `rspamd_strcase_hash`/`rspamd_strcase_equal`
comparer used by the hashed cache: ASCII upper-case bytes fold to lower
case. -/
def foldCase (k : Key) : Key := k.map (fun b => if 65 ≤ b ∧ b ≤ 90 then b + 32 else b)

/-- Case-insensitive key equality of the hashed cache. -/
def keyEq (a b : Key) : Bool := foldCase a == foldCase b

/-- GHashTable lookup (modelled as association-list search). -/
def assocLookup (tbl : List (Key × Nat)) (k : Key) : Option Nat :=
  match tbl.find? (fun p => keyEq p.1 k) with
  | some p => some p.2
  | none => none

/-- GHashTable steal/removal of a key. -/
def assocRemove (tbl : List (Key × Nat)) (k : Key) : List (Key × Nat) :=
  tbl.filter (fun p => !(keyEq p.1 k))

/-- Radix tree find (`radix32tree_find`); `none` stands for RADIX_NO_VALUE. -/
def rtreeFind (t : List (Nat × Nat)) (k : Nat) : Option Nat :=
  match t.find? (fun p => p.1 == k) with
  | some p => some p.2
  | none => none

/-- Radix tree delete (`radix32tree_delete` with the full mask). -/
def rtreeRemove (t : List (Nat × Nat)) (k : Nat) : List (Nat × Nat) :=
  t.filter (fun p => !(p.1 == k))

/-- Is the byte an ASCII decimal digit. -/
def isDigitByte (b : Nat) : Bool := 48 ≤ b && b ≤ 57

/-- Split a byte string on the dot byte. -/
def splitOnDot : Key → List Key
  | [] => [[]]
  | b :: rest =>
    if b == 46 then [] :: splitOnDot rest
    else
      match splitOnDot rest with
      | [] => [[b]]
      | p :: ps => (b :: p) :: ps

/-- Parse a nonempty decimal byte string. -/
def parseDec (p : Key) : Option Nat :=
  if p ≠ [] && p.all isDigitByte then
    some (p.foldl (fun acc b => acc * 10 + (b - 48)) 0)
  else none

/-- Modelled from the spec: libc `inet_aton`, an external collaborator,
restricted to dotted-quad inputs `a.b.c.d` with decimal components up to
255; the result is the 32-bit address value in network byte order read as a
number.  (The claims only exercise dotted quads; for the all-zero quad the
value is 0 under any byte order.) -/
def inet_aton (k : Key) : Option Nat :=
  match (splitOnDot k).mapM parseDec with
  | some [a, b, c, d] =>
    if a ≤ 255 && b ≤ 255 && c ≤ 255 && d ≤ 255 then
      some (((a * 256 + b) * 256 + c) * 256 + d)
    else none
  | _ => none

/-- `rspamd_kv_radix_validate` (kvstorage.c:734): convert the key with
`inet_aton`, returning 0 both on parse failure and for a parsed address
whose value is 0. -/
def rspamd_kv_radix_validate (k : Key) : Nat := (inet_aton k).getD 0

/-- Fresh element as built by `rspamd_kv_hash_insert` (kvstorage.c:578-584):
zeroed record, `age = now`, `keylen = strlen (key)`, `size = len`, key and
`len` bytes of the value copied in. -/
def mkHashElt (key : Key) (value : List Nat) (len now : Nat) : KvElement :=
  { key := key, data := value.take len, size := len, keylen := key.length,
    flags := kvNoFlags, age := now, expire := 0 }

/-- `rspamd_kv_hash_insert` (kvstorage.c:569-608).  On a duplicate the old
element is stolen from the table and disposed per the DIRTY/NEED_FREE rule,
then a fresh element is allocated and indexed. -/
def rspamd_kv_hash_insert (s : KvStorage) (tbl : List (Key × Nat)) (key : Key)
    (value : List Nat) (len now : Nat) : Option Nat × KvStorage :=
  match assocLookup tbl key with
  | none =>
    let elt := mkHashElt key value len now
    let id := s.elems.length
    (some id, { s with elems := s.elems ++ [elt], cache := KvCache.hash (tbl ++ [(key, id)]) })
  | some oldId =>
    let tbl1 := assocRemove tbl (eltAt s oldId).key
    let s1 := if (eltAt s oldId).flags.dirty then setNeedFree s oldId else freeElt s oldId
    let elt := mkHashElt key value len now
    let id := s1.elems.length
    (some id, { s1 with elems := s1.elems ++ [elt], cache := KvCache.hash (tbl1 ++ [(key, id)]) })

/-- `rspamd_kv_radix_insert` (kvstorage.c:749-773).  An invalid key (rkey 0)
is rejected; a duplicate returns the existing element unchanged; otherwise a
fresh element is allocated (note: the source never sets `keylen` here, so it
stays 0 from `g_slice_alloc0`). -/
def rspamd_kv_radix_insert (s : KvStorage) (tree : List (Nat × Nat)) (key : Key)
    (value : List Nat) (len now : Nat) : Option Nat × KvStorage :=
  let rkey := rspamd_kv_radix_validate key
  if rkey = 0 then (none, s)
  else
    match rtreeFind tree rkey with
    | some id => (some id, s)
    | none =>
      let elt : KvElement :=
        { key := key, data := value.take len, size := len, keylen := 0,
          flags := kvNoFlags, age := now, expire := 0 }
      let id := s.elems.length
      (some id, { s with elems := s.elems ++ [elt], cache := KvCache.radix (tree ++ [(rkey, id)]) })

/-- Dispatch of `storage->cache->insert_func`. -/
def kv_cache_insert (s : KvStorage) (key : Key) (value : List Nat) (len now : Nat) :
    Option Nat × KvStorage :=
  match s.cache with
  | KvCache.hash tbl => rspamd_kv_hash_insert s tbl key value len now
  | KvCache.radix tree => rspamd_kv_radix_insert s tree key value len now

/-- Dispatch of `storage->cache->lookup_func` (`rspamd_kv_hash_lookup`,
kvstorage.c:613, and `rspamd_kv_radix_lookup`, kvstorage.c:778). -/
def kv_cache_lookup (s : KvStorage) (key : Key) : Option Nat :=
  match s.cache with
  | KvCache.hash tbl => assocLookup tbl key
  | KvCache.radix tree => rtreeFind tree (rspamd_kv_radix_validate key)

/-- Dispatch of `storage->cache->steal_func` (`rspamd_kv_hash_steal`,
kvstorage.c:666, and `rspamd_kv_radix_steal`, kvstorage.c:830): remove the
element from the index without freeing. -/
def kv_cache_steal (s : KvStorage) (i : Nat) : KvStorage :=
  match s.cache with
  | KvCache.hash tbl => { s with cache := KvCache.hash (assocRemove tbl (eltAt s i).key) }
  | KvCache.radix tree =>
    { s with cache := KvCache.radix (rtreeRemove tree (rspamd_kv_radix_validate (eltAt s i).key)) }

/-- Dispatch of `storage->cache->delete_func` (`rspamd_kv_hash_delete`,
kvstorage.c:650, and `rspamd_kv_radix_delete`, kvstorage.c:810). -/
def kv_cache_delete (s : KvStorage) (key : Key) : Option Nat × KvStorage :=
  match s.cache with
  | KvCache.hash tbl =>
    match assocLookup tbl key with
    | some id => (some id, { s with cache := KvCache.hash (assocRemove tbl key) })
    | none => (none, s)
  | KvCache.radix tree =>
    let rkey := rspamd_kv_radix_validate key
    match rtreeFind tree rkey with
    | some id => (some id, { s with cache := KvCache.radix (rtreeRemove tree rkey) })
    | none => (none, s)

/-- `rspamd_lru_insert` (kvstorage.c:439): append to the tail of the expire
queue. -/
def rspamd_lru_insert (s : KvStorage) (i : Nat) : KvStorage :=
  { s with queue := s.queue ++ [i] }

/-- `rspamd_lru_delete` (kvstorage.c:451): unlink from the expire queue. -/
def rspamd_lru_delete (s : KvStorage) (i : Nat) : KvStorage :=
  { s with queue := s.queue.erase i }

/-- The release performed by `rspamd_lru_expire_step` on a selected element:
steal from the cache, subtract `ELT_SIZE` from `memory`, decrement `elts`,
unlink from the queue, then free — unconditionally when `checkDirty` is
false (the expired-head branch, kvstorage.c:479-484, and the forward walk,
kvstorage.c:491-496), or honouring the DIRTY/NEED_FREE rule when
`checkDirty` is true (the LRU-victim branch, kvstorage.c:503-513). -/
def lruRelease (s : KvStorage) (i : Nat) (checkDirty : Bool) : KvStorage :=
  let e := eltAt s i
  let s1 := kv_cache_steal s i
  let s2 := { s1 with
    memory := sub64 s1.memory (ELT_SIZE s1 e),
    elts := sub64 s1.elts 1,
    queue := s1.queue.erase i }
  if checkDirty && e.flags.dirty then setNeedFree s2 i else freeElt s2 i

/-- The `TAILQ_FOREACH_SAFE` walk of `rspamd_lru_expire_step`
(kvstorage.c:487-498): keep releasing the front of the remaining queue until
an element is PERSISTENT or DIRTY or satisfies `expire < now - age`; note
the source's comparison direction, which releases elements that are NOT yet
expired and breaks at the first strictly expired one.  Fuel is the queue
length, enough for the full walk. -/
def lruReleaseRun : Nat → KvStorage → Nat → KvStorage
  | 0, s, _ => s
  | fuel + 1, s, now =>
    match s.queue with
    | [] => s
    | i :: _ =>
      let e := eltAt s i
      if e.flags.persistent || e.flags.dirty || decide (now > e.age + e.expire) then s
      else lruReleaseRun fuel (lruRelease s i false) now

/-- `rspamd_lru_expire_step` (kvstorage.c:463-518).  Inspect the head; when
`forced` or the head is neither PERSISTENT nor DIRTY: if `expire - (now -
age) > 0` the head becomes the LRU victim and is released with the DIRTY
check; otherwise the head is already expired and is freed with NO dirty
check, followed by the forward walk.  Returns TRUE unconditionally. -/
def rspamd_lru_expire_step (s : KvStorage) (now : Nat) (forced : Bool) : Bool × KvStorage :=
  match s.queue with
  | [] => (true, s)
  | i :: _ =>
    let e := eltAt s i
    if forced || (!e.flags.persistent && !e.flags.dirty) then
      if now < e.age + e.expire then
        (true, lruRelease s i true)
      else
        let s1 := lruRelease s i false
        (true, lruReleaseRun s1.queue.length s1 now)
    else (true, s)

/-- The bounds loop shared by `rspamd_kv_storage_insert` (kvstorage.c:149-160)
and `rspamd_kv_storage_insert_internal` (kvstorage.c:96-107): while
`memory + len > max_memory` or `elts >= max_elts`, run an expire step (the
step counter is passed as the `forced` argument, so every step after the
first is forced) and fail once the counter exceeds MAX_EXPIRE_STEPS = 10.
The fuel argument only realises the source's bounded iteration: with fuel 12
the cap fires before fuel runs out. -/
def kv_bounds_loop : Nat → KvStorage → Nat → Nat → Nat → Bool × KvStorage
  | 0, s, _, _, _ => (false, s)
  | fuel + 1, s, len, now, steps =>
    if add64 s.memory len > s.maxMemory ∨ s.elts ≥ s.maxElts then
      let s1 := if s.hasExpire then (rspamd_lru_expire_step s now (steps != 0)).2 else s
      if steps + 1 > 10 then (false, s1)
      else kv_bounds_loop fuel s1 len now (steps + 1)
    else (true, s)

/-- The hard-limit prologue of the insertion paths (kvstorage.c:141-161 and
kvstorage.c:88-108): everything is guarded by `max_memory > 0`; inside it,
`len > max_memory` fails at once, otherwise the bounds loop runs. -/
def kv_bounds_check (s : KvStorage) (len now : Nat) : Bool × KvStorage :=
  if s.maxMemory > 0 then
    if len > s.maxMemory then (false, s)
    else kv_bounds_loop 12 s len now 0
  else (true, s)

/-- `rspamd_kv_storage_new` (kvstorage.c:35-77), restricted to the fields the
model carries; counters start at zero and the expire queue empty. -/
def rspamd_kv_storage_new (cache : KvCache) (hasExpire : Bool)
    (maxElts maxMemory overhead : Nat) : KvStorage :=
  { elems := [], freed := [], cache := cache, queue := [], hasExpire := hasExpire,
    elts := 0, memory := 0, maxElts := maxElts, maxMemory := maxMemory, overhead := overhead }

/-- `rspamd_kv_storage_insert` (kvstorage.c:132-205): hard-limit prologue;
steal-and-dispose of a pre-existing element under the same key; fresh cache
insert; `flags`, `size`, `expire` written onto the record with PERSISTENT
added when `expire == 0`; expire-queue append; `elts` incremented and
`len + overhead` added to `memory`.  With no backend the result of a
successful path is TRUE. -/
def rspamd_kv_storage_insert (s : KvStorage) (key : Key) (data : List Nat)
    (len : Nat) (flags : KvFlags) (expire now : Nat) : Bool × KvStorage :=
  match kv_bounds_check s len now with
  | (false, s1) => (false, s1)
  | (true, s1) =>
    let s2 :=
      match kv_cache_lookup s1 key with
      | some oldId =>
        let sA := if s1.hasExpire then rspamd_lru_delete s1 oldId else s1
        let sB := kv_cache_steal sA oldId
        if (eltAt sB oldId).flags.dirty then setNeedFree sB oldId else freeElt sB oldId
      | none => s1
    match kv_cache_insert s2 key data len now with
    | (none, s3) => (false, s3)
    | (some id, s3) =>
      let s4 := updateElt s3 id (fun e =>
        { e with
          flags := if expire = 0 then { flags with persistent := true } else flags,
          size := len,
          expire := expire })
      let s5 := if s4.hasExpire then rspamd_lru_insert s4 id else s4
      (true, { s5 with elts := add64 s5.elts 1, memory := add64 s5.memory (len + s5.overhead) })

/-- `rspamd_kv_storage_insert_internal` (kvstorage.c:80-129): same bounds
prologue, but no duplicate steal, no PERSISTENT canonicalisation for
`expire == 0`, no `size` write (the cache already set it), and `memory`
grows by `elt->size + overhead`.  Returns the inserted element id. -/
def rspamd_kv_storage_insert_internal (s : KvStorage) (key : Key) (data : List Nat)
    (len : Nat) (flags : KvFlags) (expire now : Nat) : Option Nat × KvStorage :=
  match kv_bounds_check s len now with
  | (false, s1) => (none, s1)
  | (true, s1) =>
    match kv_cache_insert s1 key data len now with
    | (none, s2) => (none, s2)
    | (some id, s2) =>
      let s3 := updateElt s2 id (fun e => { e with flags := flags, expire := expire })
      let s4 := if s3.hasExpire then rspamd_lru_insert s3 id else s3
      let sz := (eltAt s4 id).size
      (some id, { s4 with elts := add64 s4.elts 1, memory := add64 s4.memory (sz + s4.overhead) })

/-- `rspamd_kv_storage_lookup` (kvstorage.c:249-279) with no backend: probe
the cache; report absent when the element is not PERSISTENT, has a positive
`expire` and `now - age > expire`. -/
def rspamd_kv_storage_lookup (s : KvStorage) (key : Key) (now : Nat) : Option Nat :=
  match kv_cache_lookup s key with
  | none => none
  | some id =>
    let e := eltAt s id
    if !e.flags.persistent && decide (0 < e.expire) && decide (now > e.age + e.expire) then none
    else some id

/-- `rspamd_kv_storage_delete` (kvstorage.c:282-304) with no backend: delete
from the cache; when an element came back, unlink it from the expire queue,
decrement `elts` and subtract ONLY `elt->size` from `memory` (the source
does not subtract the record overhead here). -/
def rspamd_kv_storage_delete (s : KvStorage) (key : Key) : Option Nat × KvStorage :=
  match kv_cache_delete s key with
  | (none, s1) => (none, s1)
  | (some id, s1) =>
    let s2 := if s1.hasExpire then rspamd_lru_delete s1 id else s1
    (some id, { s2 with elts := sub64 s2.elts 1, memory := sub64 s2.memory (eltAt s2 id).size })

/-- Little-endian 4-byte rendering of a 32-bit value, as laid down by the
`*es = elt_size` store of `rspamd_kv_storage_insert_array` on the
little-endian targets rspamd runs on. -/
def le32 (n : Nat) : List Nat :=
  [n % 256, n / 256 % 256, n / 65536 % 256, n / 16777216 % 256]

/-- Little-endian read of the leading 4 bytes of a payload, the
`*(guint *) ELT_DATA (elt)` of the array accessors. -/
def readLE32 (l : List Nat) : Nat :=
  l.getD 0 0 + 256 * l.getD 1 0 + 65536 * l.getD 2 0 + 16777216 * l.getD 3 0

/-- The temporary buffer built by `rspamd_kv_storage_insert_array`
(kvstorage.c:334-337): an allocation of `len + 4` bytes whose first 4 bytes
are set to the stride and the rest (`uninit`, `len` bytes) is uninitialised
(`g_slice_alloc`, not alloc0); then `memcpy (arr_data, data + 4, len)`
copies `len` bytes starting 4 bytes INTO the caller's `len`-byte buffer over
the START of the allocation — `oob` stands for the 4 bytes the copy reads
past the end of `data`. -/
def insertArrayPayload (stride len : Nat) (data oob uninit : List Nat) : List Nat :=
  ((data.drop 4 ++ oob).take len) ++ ((le32 stride ++ uninit).drop len)

/-- `rspamd_kv_storage_insert_array` (kvstorage.c:325-352): build the
temporary buffer, insert it through `rspamd_kv_storage_insert_internal` with
length `len + 4`, and on success set ARRAY on the resulting record.  The
temporary buffer free has no observable effect in the model; with no backend
the success result is TRUE. -/
def rspamd_kv_storage_insert_array (s : KvStorage) (key : Key) (elt_size : Nat)
    (data : List Nat) (len : Nat) (flags : KvFlags) (expire now : Nat)
    (oob uninit : List Nat) : Bool × KvStorage :=
  let arr_data := insertArrayPayload elt_size len data oob uninit
  match rspamd_kv_storage_insert_internal s key arr_data (len + 4) flags expire now with
  | (none, s1) => (false, s1)
  | (some id, s1) =>
    let s2 := updateElt s1 id (fun e => { e with flags := { e.flags with array := true } })
    (true, s2)

/-- Overwrite `src.length` bytes of `l` starting at `off` (the `memcpy` of
`rspamd_kv_storage_set_array`); a write past the end of `l`, out of bounds
in C, extends the list in the model. -/
def writeBytes (l : List Nat) (off : Nat) (src : List Nat) : List Nat :=
  l.take off ++ src ++ l.drop (off + src.length)

/-- `rspamd_kv_storage_set_array` (kvstorage.c:355-389): look the key up,
require ARRAY, read the stride `*es` from the first payload bytes, reject
`elt_num > (size - 4) / *es` (note: only STRICTLY greater indices are
rejected) and `len != *es`, then memcpy `data` onto the slot at offset
`4 + *es * elt_num`.  With no backend the success result is TRUE. -/
def rspamd_kv_storage_set_array (s : KvStorage) (key : Key) (elt_num : Nat)
    (data : List Nat) (len now : Nat) : Bool × KvStorage :=
  match rspamd_kv_storage_lookup s key now with
  | none => (false, s)
  | some id =>
    let e := eltAt s id
    if !e.flags.array then (false, s)
    else
      let es := readLE32 e.data
      if elt_num > sub64 e.size 4 / es then (false, s)
      else if len ≠ es then (false, s)
      else
        (true, updateElt s id (fun el =>
          { el with data := writeBytes el.data (4 + es * elt_num) data }))

/-- `rspamd_kv_storage_get_array` (kvstorage.c:392-420): same guards as
`set_array`; on acceptance return the `*es` bytes at offset
`4 + *es * elt_num` of the payload together with the stride as length. -/
def rspamd_kv_storage_get_array (s : KvStorage) (key : Key) (elt_num now : Nat) :
    Option (List Nat × Nat) :=
  match rspamd_kv_storage_lookup s key now with
  | none => none
  | some id =>
    let e := eltAt s id
    if !e.flags.array then none
    else
      let es := readLE32 e.data
      if elt_num > sub64 e.size 4 / es then none
      else some ((e.data.drop (4 + es * elt_num)).take es, es)

/-- The divisor used by the index-bound check of `rspamd_kv_storage_set_array`
(kvstorage.c:372-373): once the lookup succeeds and the ARRAY flag is
present, the division `(elt->size - 4) / (*es)` is evaluated with the raw
leading payload bytes as divisor, with no zero check. -/
def kv_storage_set_array_divisor (s : KvStorage) (key : Key) (now : Nat) : Option Nat :=
  match rspamd_kv_storage_lookup s key now with
  | none => none
  | some id =>
    if !(eltAt s id).flags.array then none
    else some (readLE32 (eltAt s id).data)

/-- The divisor used by the index-bound check of `rspamd_kv_storage_get_array`
(kvstorage.c:409-410), identical guard code to `set_array`. -/
def kv_storage_get_array_divisor (s : KvStorage) (key : Key) (now : Nat) : Option Nat :=
  match rspamd_kv_storage_lookup s key now with
  | none => none
  | some id =>
    if !(eltAt s id).flags.array then none
    else some (readLE32 (eltAt s id).data)

/-- Number of entries the cache index currently holds. -/
def cacheResidentCount (s : KvStorage) : Nat :=
  match s.cache with
  | KvCache.hash tbl => tbl.length
  | KvCache.radix tree => tree.length

/-- Payload bytes a lookup hands back, when it reports the key present. -/
def lookupData (s : KvStorage) (key : Key) (now : Nat) : Option (List Nat) :=
  (rspamd_kv_storage_lookup s key now).map (fun i => (eltAt s i).data)

/-- Has some element been `g_slice_free1`-d while its DIRTY flag was set (no
path of the model mutates an element after freeing it, so the flags in the
heap are the flags at free time). -/
def freedDirtyViolation (s : KvStorage) : Bool :=
  s.freed.any (fun i => (eltAt s i).flags.dirty)

/-
Concrete scenario material for the claims.
-/

/-- Key "a". -/
def keyA : Key := [97]

/-- Key "b". -/
def keyB : Key := [98]

/-- Key "c". -/
def keyC : Key := [99]

/-- Key "k". -/
def keyK : Key := [107]

/-- Key "arr". -/
def keyArr : Key := [97, 114, 114]

/-- Key "0.0.0.0", a well-formed dotted quad whose 32-bit value is 0. -/
def keyIp0 : Key := [48, 46, 48, 46, 48, 46, 48]

/-- Caller flags with only DIRTY set. -/
def dirtyFlags : KvFlags := { kvNoFlags with dirty := true }

/-- Element flags with only ARRAY set. -/
def arrayFlags : KvFlags := { kvNoFlags with array := true }

/-- A fresh storage over the hashed cache and the LRU expire, no backend,
both bounds disabled (`max_elts = max_memory = 0`), record overhead 32. -/
def baseHashStore : KvStorage := rspamd_kv_storage_new (KvCache.hash []) true 0 0 32

/-- State after the first `Insert("k", "v", 0, 10)` of the C1 scenario. -/
def C1_after1 : KvStorage := (rspamd_kv_storage_insert baseHashStore keyK [118] 1 kvNoFlags 10 0).2

/-- State after the second, duplicate, `Insert("k", "v", 0, 10)`. -/
def C1_after2 : KvStorage := (rspamd_kv_storage_insert C1_after1 keyK [118] 1 kvNoFlags 10 0).2

/-- C1: inserting the same key twice does dispose the first element (the
cache holds exactly one entry and element 0 was freed), but the source
decrements nothing on the duplicate-steal path, so `elts` ends at 2 — not 1
— and `memory` accounts for two copies (2 * (len + overhead)) although only
one element is cache-resident.  This exhibits the failing input of the
claim. -/
theorem C1_duplicate_insert_counter_drift :
    (rspamd_kv_storage_insert baseHashStore keyK [118] 1 kvNoFlags 10 0).1 = true ∧
    (rspamd_kv_storage_insert C1_after1 keyK [118] 1 kvNoFlags 10 0).1 = true ∧
    cacheResidentCount C1_after2 = 1 ∧
    C1_after2.freed = [0] ∧
    C1_after2.elts = 2 ∧
    C1_after2.memory = 2 * (1 + 32) := by decide

/-- State after `Insert("k", "val", 0, 10)` into the fresh store. -/
def C2_afterInsert : KvStorage :=
  (rspamd_kv_storage_insert baseHashStore keyK [118, 97, 108] 3 kvNoFlags 10 0).2

/-- State after the following `Delete("k")`. -/
def C2_afterDelete : KvStorage := (rspamd_kv_storage_delete C2_afterInsert keyK).2

/-- C2: a successful Insert adds `len + overhead = 3 + 32` to `memory`, but
Delete subtracts only `size = 3`, so after Insert-then-Delete the store is
empty (`elts = 0`, no cache-resident element) while `memory = 32` — the
record overhead is never given back and `memory` no longer equals the sum of
`size + overhead` over cache-resident elements (which is 0).  This exhibits
the failing input of the claim. -/
theorem C2_delete_leaves_overhead_accounted :
    (rspamd_kv_storage_insert baseHashStore keyK [118, 97, 108] 3 kvNoFlags 10 0).1 = true ∧
    C2_afterInsert.memory = 3 + 32 ∧
    (rspamd_kv_storage_delete C2_afterInsert keyK).1 = some 0 ∧
    cacheResidentCount C2_afterDelete = 0 ∧
    C2_afterDelete.elts = 0 ∧
    C2_afterDelete.memory = 32 := by decide

/-- Storage of the C3 scenario: hashed cache, LRU expire, no backend,
`max_elts = 2`, `max_memory = 0`, overhead 32. -/
def C3_store : KvStorage := rspamd_kv_storage_new (KvCache.hash []) true 2 0 32

/-- C3 scenario after `Insert("a", "1", 0, 10)`. -/
def C3_afterA : KvStorage := (rspamd_kv_storage_insert C3_store keyA [49] 1 kvNoFlags 10 0).2

/-- C3 scenario after the further `Insert("b", "2", 0, 10)`. -/
def C3_afterB : KvStorage := (rspamd_kv_storage_insert C3_afterA keyB [50] 1 kvNoFlags 10 0).2

/-- C3 scenario after the further `Insert("c", "3", 0, 10)`. -/
def C3_afterC : KvStorage := (rspamd_kv_storage_insert C3_afterB keyC [51] 1 kvNoFlags 10 0).2

/-- C3 counterexample: with `max_elts = 2` and `max_memory = 0` the third
insert does NOT evict "a" — the whole bounds loop of
`rspamd_kv_storage_insert` sits inside `if (storage->max_memory > 0)`, so
with the memory bound disabled the element bound is never consulted.  After
the three inserts `elts = 3` (the claim says 2) and `Lookup("a", 0)` still
returns "1" (the claim says absent). -/
theorem C3_counterexample_no_eviction :
    C3_afterC.elts = 3 ∧
    lookupData C3_afterC keyA 0 = some [49] := by decide

/-- C3 amended: the element-count bound is enforced only when the memory
bound is active (`max_memory > 0`); with `max_memory = 0` both bounds are
disabled, so in the scenario all three inserts succeed with no expire step
run and no eviction — `elts = 3`, the queue holds all three elements,
nothing was freed, and all three lookups return their values. -/
theorem C3_element_bound_needs_memory_bound :
    (rspamd_kv_storage_insert C3_store keyA [49] 1 kvNoFlags 10 0).1 = true ∧
    (rspamd_kv_storage_insert C3_afterA keyB [50] 1 kvNoFlags 10 0).1 = true ∧
    (rspamd_kv_storage_insert C3_afterB keyC [51] 1 kvNoFlags 10 0).1 = true ∧
    C3_afterC.elts = 3 ∧
    C3_afterC.queue = [0, 1, 2] ∧
    C3_afterC.freed = [] ∧
    lookupData C3_afterC keyA 0 = some [49] ∧
    lookupData C3_afterC keyB 0 = some [50] ∧
    lookupData C3_afterC keyC 0 = some [51] := by decide

/-- C4 scenario after `Insert("a", "1", 0, expire 5)` at time 0. -/
def C4_afterA : KvStorage := (rspamd_kv_storage_insert baseHashStore keyA [49] 1 kvNoFlags 5 0).2

/-- C4 scenario after the further `Insert("b", "2", 0, expire 100)` at time 0. -/
def C4_afterB : KvStorage := (rspamd_kv_storage_insert C4_afterA keyB [50] 1 kvNoFlags 100 0).2

/-- C4 scenario after one unforced expire step at `now = 10`. -/
def C4_afterStep : KvStorage := (rspamd_lru_expire_step C4_afterB 10 false).2

/-- C4: at `now = 10` the head "a" (age 0, expire 5) is expired and
releasable, while its successor "b" (age 0, expire 100) is not yet expired
and unpinned; the claim says the walk stops there, leaving "b" in the queue
and the cache.  The source's walk condition is inverted (it breaks on
`expire < now - age` instead of releasing on it), so the step frees BOTH
elements: the queue and the cache end empty and both ids were freed. -/
theorem C4_walk_releases_unexpired_successor :
    C4_afterB.queue = [0, 1] ∧
    (eltAt C4_afterB 0).age + (eltAt C4_afterB 0).expire ≤ 10 ∧
    10 < (eltAt C4_afterB 1).age + (eltAt C4_afterB 1).expire ∧
    ((eltAt C4_afterB 1).flags.persistent || (eltAt C4_afterB 1).flags.dirty) = false ∧
    C4_afterStep.queue = [] ∧
    C4_afterStep.freed = [0, 1] ∧
    cacheResidentCount C4_afterStep = 0 := by decide

/-- C5 scenario: a DIRTY element "k" (age 0, expire 5) in the store. -/
def C5_afterInsert : KvStorage :=
  (rspamd_kv_storage_insert baseHashStore keyK [118] 1 dirtyFlags 5 0).2

/-- C5 scenario after a forced expire step at `now = 10`, at which the DIRTY
head is expired. -/
def C5_afterStep : KvStorage := (rspamd_lru_expire_step C5_afterInsert 10 true).2

/-- C5: the expired-head branch of `rspamd_lru_expire_step` calls
`g_slice_free1` with no DIRTY check, so a forced step whose expired head
carries DIRTY frees the element outright — NEED_FREE is not set and a DIRTY
element has had its memory released, violating the claimed invariant. -/
theorem C5_forced_step_frees_dirty_head :
    (eltAt C5_afterInsert 0).flags.dirty = true ∧
    C5_afterStep.freed = [0] ∧
    (eltAt C5_afterStep 0).flags.need_free = false ∧
    freedDirtyViolation C5_afterStep = true := by decide

/-- An ARRAY element with stride 4 and two slots: payload = stride word
`[4,0,0,0]` followed by slots `[1,2,3,4]` and `[5,6,7,8]`, `size = 12`. -/
def C6_elt : KvElement :=
  { key := keyArr, data := [4, 0, 0, 0, 1, 2, 3, 4, 5, 6, 7, 8], size := 12,
    keylen := 3, flags := arrayFlags, age := 0, expire := 0 }

/-- A store holding only `C6_elt` under key "arr". -/
def C6_store : KvStorage :=
  { elems := [C6_elt], freed := [], cache := KvCache.hash [(keyArr, 0)],
    queue := [0], hasExpire := true, elts := 1, memory := 48,
    maxElts := 0, maxMemory := 0, overhead := 32 }

/-- C6: the element holds `n = (size - 4) / stride = 2` slots, so the claim
requires index 2 to be rejected; but the source rejects only `index > n`,
so SetArray and GetArray both ACCEPT index 2, whose slot
`[4 + 4 * 2, 4 + 4 * 2 + 4) = [12, 16)` lies entirely past the payload end
(`size = 12`) — an out-of-bounds access.  Index 3 is rejected, confirming
the off-by-one. -/
theorem C6_index_bound_off_by_one :
    sub64 C6_elt.size 4 / readLE32 C6_elt.data = 2 ∧
    (rspamd_kv_storage_set_array C6_store keyArr 2 [9, 9, 9, 9] 4 0).1 = true ∧
    rspamd_kv_storage_get_array C6_store keyArr 2 0 ≠ none ∧
    C6_elt.size < 4 + readLE32 C6_elt.data * 2 + readLE32 C6_elt.data ∧
    (rspamd_kv_storage_set_array C6_store keyArr 3 [9, 9, 9, 9] 4 0).1 = false := by decide

/-- The caller data of spec scenario 4: two 4-byte slots `[0,0,0,1]` and
`[0,0,0,2]`. -/
def C7_data : List Nat := [0, 0, 0, 1, 0, 0, 0, 2]

/-- C7 scenario: `InsertArray("arr", stride 4, C7_data, len 8, 0, expire 10)`
on the fresh store; 250-bytes stand for the 4 bytes the source's memcpy
reads past the end of `data`, 251-bytes for the uninitialised tail of the
temporary allocation. -/
def C7_result : Bool × KvStorage :=
  rspamd_kv_storage_insert_array baseHashStore keyArr 4 C7_data 8 kvNoFlags 10 0
    [250, 250, 250, 250] [251, 251, 251, 251, 251, 251, 251, 251]

/-- C7: the claim says the stored payload is the 4-byte stride followed by
the caller's data, and GetArray(k, 1) returns `[0,0,0,2]`.  The source's
`memcpy (arr_data, data + 4, len)` instead copies from 4 bytes INTO the
caller's buffer over the START of the allocation, overwriting the stride
word: the stored payload begins with `[0,0,0,2]` (bytes 4..8 of the data),
not `le32 4`, continues with 4 out-of-bounds bytes, and GetArray(k, 1)
returns absent (the garbage stride makes the bound check fail) instead of
the original slot. -/
theorem C7_insert_array_overwrites_stride :
    C7_result.1 = true ∧
    (eltAt C7_result.2 0).data = [0, 0, 0, 2, 250, 250, 250, 250, 251, 251, 251, 251] ∧
    (eltAt C7_result.2 0).data.take 4 ≠ le32 4 ∧
    rspamd_kv_storage_get_array C7_result.2 keyArr 1 10 = none := by decide

/-- C8 scenario: `InsertArray("arr", 4, C7_data, 8, 0, expire 0)` on the
fresh store. -/
def C8_result : Bool × KvStorage :=
  rspamd_kv_storage_insert_array baseHashStore keyArr 4 C7_data 8 kvNoFlags 0 0
    [250, 250, 250, 250] [251, 251, 251, 251, 251, 251, 251, 251]

/-- C8 scenario after an unforced expire step at `now = 1000`. -/
def C8_afterStep : KvStorage := (rspamd_lru_expire_step C8_result.2 1000 false).2

/-- C8 comparison path: a plain `Insert("k", "v", 0, expire 0)`. -/
def C8_facadeInsert : KvStorage :=
  (rspamd_kv_storage_insert baseHashStore keyK [118] 1 kvNoFlags 0 0).2

/-- C8: only `rspamd_kv_storage_insert` canonicalises `expire == 0` to
PERSISTENT; `rspamd_kv_storage_insert_internal` — the path used by
InsertArray and by backend-miss admission — writes the caller flags
unchanged.  An element inserted through InsertArray with `expire = 0` lacks
PERSISTENT and is removed and freed by the very next time-based expire step,
while the same expire through the facade Insert does set PERSISTENT. -/
theorem C8_insert_internal_skips_persistent :
    C8_result.1 = true ∧
    (eltAt C8_result.2 0).expire = 0 ∧
    (eltAt C8_result.2 0).flags.persistent = false ∧
    C8_afterStep.freed = [0] ∧
    C8_afterStep.queue = [] ∧
    (eltAt C8_facadeInsert 0).flags.persistent = true := by decide

/-- A fresh storage over the radix cache and the LRU expire, no backend,
bounds disabled, overhead 32. -/
def C9_store : KvStorage := rspamd_kv_storage_new (KvCache.radix []) true 0 0 32

/-- C9: "0.0.0.0" parses as a well-formed dotted quad with 32-bit value 0,
but `rspamd_kv_radix_validate` uses 0 both as the converted address and as
its invalid-key sentinel, so the radix cache insert returns absent and the
facade Insert returns FALSE with the storage unchanged — no entry is
created for that key. -/
theorem C9_radix_rejects_zero_address :
    inet_aton keyIp0 = some 0 ∧
    rspamd_kv_radix_validate keyIp0 = 0 ∧
    (kv_cache_insert C9_store keyIp0 [118] 1 0).1 = none ∧
    rspamd_kv_storage_insert C9_store keyIp0 [118] 1 kvNoFlags 10 0 = (false, C9_store) := by decide

/-- C10: whenever SetArray's and GetArray's common guard prefix passes — the
key is found and the element carries ARRAY — the index-bound computation
`(size - 4) / (*es)` divides by the raw leading payload bytes with no zero
check; for every element whose stored stride field is 0 the divisor used is
0, so stride non-zeroness is a precondition these operations do not
establish. -/
theorem C10_array_bound_divides_by_raw_stride (s : KvStorage) (key : Key) (now id : Nat)
    (hLook : rspamd_kv_storage_lookup s key now = some id)
    (hArr : (eltAt s id).flags.array = true)
    (hZero : readLE32 (eltAt s id).data = 0) :
    kv_storage_set_array_divisor s key now = some 0 ∧
    kv_storage_get_array_divisor s key now = some 0 := by
  unfold kv_storage_set_array_divisor kv_storage_get_array_divisor
  rw [hLook]
  simp [hArr, hZero]

/-- An ARRAY element whose stored stride field is 0: payload `[0,0,0,0]`
followed by four data bytes, `size = 8`. -/
def C10_elt : KvElement :=
  { key := keyArr, data := [0, 0, 0, 0, 1, 2, 3, 4], size := 8,
    keylen := 3, flags := arrayFlags, age := 0, expire := 0 }

/-- A store holding only `C10_elt` under key "arr". -/
def C10_store : KvStorage :=
  { elems := [C10_elt], freed := [], cache := KvCache.hash [(keyArr, 0)],
    queue := [0], hasExpire := true, elts := 1, memory := 44,
    maxElts := 0, maxMemory := 0, overhead := 32 }

/-- C10 witness: the zero-stride state instantiates the theorem — both array
accessors reach their bound division with divisor 0. -/
theorem C10_array_bound_divides_by_raw_stride_witness :
    kv_storage_set_array_divisor C10_store keyArr 0 = some 0 ∧
    kv_storage_get_array_divisor C10_store keyArr 0 = some 0 :=
  C10_array_bound_divides_by_raw_stride C10_store keyArr 0 0
    (by decide) (by decide) (by decide)
